import Mathlib

/-
Verification of the twilight-rs webhook-slash example: a shallow embedding of
`src/webhook-slash/src/main.rs`, the Discord interaction webhook endpoint with
ed25519 signature verification and command dispatch.

Bytes are modelled as `Nat` (values below 256 where it matters), HTTP header
values and bodies as `List Nat`.  The ed25519 verification primitive
(`PUB_KEY.verify`) is abstracted as a boolean function parameter taking the
message bytes and the decoded 64-byte signature.  Errors returned with `?`
from `interaction_handler` (which in the program cross into hyper as a
`GenericError`) are modelled by the `Outcome.errReturn` constructor, and the
`unwrap` panic on the UTF-8 conversion at the `println!` by `Outcome.panicked`.
-/

set_option autoImplicit false
set_option maxRecDepth 8192

namespace WebhookSlash

/-- HTTP method, as compared by `req.method() != Method::POST`. -/
inductive Method where
  | POST
  | GET
  | other (name : String)
  deriving DecidableEq

/-- An inbound HTTP request as seen by `interaction_handler`: method, URI
path, header map (hyper normalizes header names to lowercase; values are raw
bytes), and the body.  `body = none` models a failure of
`hyper::body::to_bytes(req).await`, whose error the handler propagates
with `?`. -/
structure Request where
  method : Method
  path : String
  headers : List (String × List Nat)
  body : Option (List Nat)

/-- `req.headers().get(name)`: first value for the name, if present. -/
def getHeader : List (String × List Nat) → String → Option (List Nat)
  | [], _ => none
  | (k, v) :: rest, name => if k = name then some v else getHeader rest name

/-- Value of an ASCII hex digit byte, as accepted by the `hex` crate
(both cases). -/
def hexVal (b : Nat) : Option Nat :=
  if 0x30 ≤ b ∧ b ≤ 0x39 then some (b - 0x30)
  else if 0x61 ≤ b ∧ b ≤ 0x66 then some (b - 0x61 + 10)
  else if 0x41 ≤ b ∧ b ≤ 0x46 then some (b - 0x41 + 10)
  else none

/-- Decode a byte string of hex digits into bytes; fails on any non-hex
digit (odd length is rejected by the caller's length check). -/
def hexDecode : List Nat → Option (List Nat)
  | [] => some []
  | hi :: lo :: rest =>
    match hexVal hi, hexVal lo, hexDecode rest with
    | some a, some b, some tl => some ((a * 16 + b) :: tl)
    | _, _, _ => none
  | _ => none

/-- `<[u8; 64] as FromHex>::from_hex` on the signature header: exactly 128
hex digits decoding to 64 bytes, else an error. -/
def fromHex64 (s : List Nat) : Option (List Nat) :=
  if s.length = 128 then hexDecode s else none

/-- A byte sequence is valid UTF-8, per RFC 3629 as enforced by Rust's
`String::from_utf8` (no overlong forms, no surrogates, max U+10FFFF). -/
def isContByte (b : Nat) : Bool :=
  0x80 ≤ b && b ≤ 0xBF

def utf8Valid : List Nat → Bool
  | [] => true
  | b :: rest =>
    if b ≤ 0x7F then utf8Valid rest
    else if 0xC2 ≤ b && b ≤ 0xDF then
      match rest with
      | c1 :: tl => isContByte c1 && utf8Valid tl
      | [] => false
    else if b = 0xE0 then
      match rest with
      | c1 :: c2 :: tl => (0xA0 ≤ c1 && c1 ≤ 0xBF) && isContByte c2 && utf8Valid tl
      | _ => false
    else if (0xE1 ≤ b && b ≤ 0xEC) || b = 0xEE || b = 0xEF then
      match rest with
      | c1 :: c2 :: tl => isContByte c1 && isContByte c2 && utf8Valid tl
      | _ => false
    else if b = 0xED then
      match rest with
      | c1 :: c2 :: tl => (0x80 ≤ c1 && c1 ≤ 0x9F) && isContByte c2 && utf8Valid tl
      | _ => false
    else if b = 0xF0 then
      match rest with
      | c1 :: c2 :: c3 :: tl =>
        (0x90 ≤ c1 && c1 ≤ 0xBF) && isContByte c2 && isContByte c3 && utf8Valid tl
      | _ => false
    else if 0xF1 ≤ b && b ≤ 0xF3 then
      match rest with
      | c1 :: c2 :: c3 :: tl =>
        isContByte c1 && isContByte c2 && isContByte c3 && utf8Valid tl
      | _ => false
    else if b = 0xF4 then
      match rest with
      | c1 :: c2 :: c3 :: tl =>
        (0x80 ≤ c1 && c1 ≤ 0x8F) && isContByte c2 && isContByte c3 && utf8Valid tl
      | _ => false
    else false

/-- UTF-8 bytes of an ASCII string (for ASCII, code points equal bytes). -/
def asciiBytes (s : String) : List Nat :=
  s.data.map Char.toNat

/-- The tagged interaction value decoded from the body.  Modelled from the
spec: the twilight-model `Interaction` enum is external crate code; per the
spec's data model it is "a tagged variant over \x7bPing,
ApplicationCommand(command-name, command-payload), Other\x7d", and only the
command name is consulted by this program. -/
inductive Interaction where
  | Ping
  | ApplicationCommand (name : String)
  | Other
  deriving DecidableEq

/-- Modelled from the spec: the `CallbackData` reply body, which "carries a
text content field and optional flags/mentions/embeds, all absent in the
minimal core". -/
structure CallbackData where
  allowed_mentions : Option Unit
  flags : Option Nat
  tts : Option Bool
  content : Option String
  embeds : List Unit
  deriving DecidableEq

/-- The handler's reply variant set, from the spec's data model:
"a tagged variant over \x7bPong, ChannelMessageWithSource(reply-body)\x7d". -/
inductive InteractionResponse where
  | Pong
  | ChannelMessageWithSource (data : CallbackData)
  deriving DecidableEq

/-- Strip a leading byte pattern; `some` of the remainder on a match. -/
def stripLeading : List Nat → List Nat → Option (List Nat)
  | [], rest => some rest
  | _ :: _, [] => none
  | p :: ps, x :: xs => if x = p then stripLeading ps xs else none

/-- The opening bytes of an application-command body per the spec's schema
`\x7b"type":2, "data":\x7b"name": "<command>", ...\x7d, ...\x7d`
(minimal form, no extra fields). -/
def cmdOpenBytes : List Nat :=
  asciiBytes "\x7b\"type\":2,\"data\":\x7b\"name\":\""

/-- The closing bytes of an application-command body, reversed. -/
def cmdCloseRev : List Nat :=
  (asciiBytes "\"\x7d\x7d").reverse

/-- Extract the command name from an application-command body of the
spec's minimal shape; the name may be any ASCII string without `"` or `\`. -/
def cmdName (b : List Nat) : Option String :=
  match stripLeading cmdOpenBytes b with
  | none => none
  | some rest =>
    match stripLeading cmdCloseRev rest.reverse with
    | none => none
    | some midRev =>
      let mid := midRev.reverse
      if mid.all (fun c => 0x20 ≤ c && c ≤ 0x7E && c ≠ 0x22 && c ≠ 0x5C) then
        some (String.mk (mid.map Char.ofNat))
      else none

/-- Modelled from the spec: `serde_json::from_slice::<Interaction>` is
external crate code.  Per the spec's external-interface section, a ping body
is `\x7b"type":1\x7d`, an application command body is
`\x7b"type":2,"data":\x7b"name":"<command>"\x7d\x7d`, any other interaction
kind (here the component-interaction shape `\x7b"type":3\x7d`) decodes to
`Other`, and bytes matching no known interaction shape fail to decode. -/
def decodeInteraction (b : List Nat) : Option Interaction :=
  if b = asciiBytes "\x7b\"type\":1\x7d" then some Interaction.Ping
  else if b = asciiBytes "\x7b\"type\":3\x7d" then some Interaction.Other
  else
    match cmdName b with
    | some n => some (Interaction.ApplicationCommand n)
    | none => none

/-- Minimal JSON string escaping for the encoded reply content. -/
def jsonEscapeChar (c : Char) : String :=
  if c = '\"' then "\\\""
  else if c = '\\' then "\\\\"
  else if c = '\n' then "\\n"
  else String.mk [c]

def jsonString (s : String) : String :=
  "\"" ++ String.join (s.data.map jsonEscapeChar) ++ "\""

/-- Modelled from the spec: `serde_json::to_vec(&response)` is external
crate code.  Per the spec's external-interface section the wire form is
`\x7b"type":1\x7d` for Pong and
`\x7b"type":4,"data":\x7b"content":"<text>", ...\x7d\x7d` for a
channel-message reply; serialization of these well-formed variants never
fails. -/
def encodeResponse : InteractionResponse → List Nat
  | InteractionResponse.Pong => asciiBytes "\x7b\"type\":1\x7d"
  | InteractionResponse.ChannelMessageWithSource d =>
    asciiBytes ("\x7b\"type\":4,\"data\":\x7b\"content\":" ++
      (match d.content with
       | some s => jsonString s
       | none => "null") ++ "\x7d\x7d")

/-- Modelled from the spec: the derived `Debug` formatting (`\x7b:?\x7d`)
of a twilight-model interaction value is external crate code whose exact
text the spec leaves unspecified; modelled as a simple rendering. -/
def reprInteraction : Interaction → String
  | Interaction.Ping => "Ping"
  | Interaction.ApplicationCommand n => "ApplicationCommand(" ++ n ++ ")"
  | Interaction.Other => "Other"

/-- The reply value built by `debug` in main.rs: the debug-formatted
interaction in a Rust code fence, all optional fields absent. -/
def debugReply (i : Interaction) : InteractionResponse :=
  InteractionResponse.ChannelMessageWithSource
    { allowed_mentions := none
      flags := none
      tts := none
      content := some ("```rust\n" ++ reprInteraction i ++ "\n```")
      embeds := [] }

/-- `debug` in main.rs: replies with `debugReply`; never fails. -/
def debug (i : Interaction) : Except String InteractionResponse :=
  Except.ok (debugReply i)

/-- The reply value built by `vroom` in main.rs: fixed content
"Vroom vroom", all optional fields absent. -/
def vroomReply : InteractionResponse :=
  InteractionResponse.ChannelMessageWithSource
    { allowed_mentions := none
      flags := none
      tts := none
      content := some "Vroom vroom"
      embeds := [] }

/-- `vroom` in main.rs: replies with `vroomReply`; never fails. -/
def vroom (_ : Interaction) : Except String InteractionResponse :=
  Except.ok vroomReply

/-- The text content carried by a reply (the `content` field of the
callback data; `Pong` carries none). -/
def replyContent : InteractionResponse → Option String
  | InteractionResponse.Pong => none
  | InteractionResponse.ChannelMessageWithSource d => d.content

/-- `handler` in main.rs: routes an application command by exact name match,
"vroom" and "debug" explicitly, anything else to `debug`; a non-command
interaction yields an error (unreachable from `interaction_handler`, which
only forwards application commands). -/
def handler (i : Interaction) : Except String InteractionResponse :=
  match i with
  | Interaction.ApplicationCommand name =>
    match name with
    | "vroom" => vroom i
    | "debug" => debug i
    | _ => debug i
  | _ => Except.error "invalid interaction data"

/-- Internal failures that `interaction_handler` propagates with `?` instead
of encoding into an HTTP response: signature-hex decode failure (line 50),
body-read failure (line 57), JSON decode failure (line 72), and a handler
error (line 85). -/
inductive PipelineError where
  | hexError
  | bodyError
  | jsonError
  | handlerError (msg : String)
  deriving DecidableEq

/-- The externally observable result of one call to `interaction_handler`:
an HTTP response with status and body bytes, an `Err` return crossing the
handler boundary into hyper, or a panic of the handling task
(the `unwrap` on line 70). -/
inductive Outcome where
  | response (status : Nat) (body : List Nat)
  | errReturn (e : PipelineError)
  | panicked
  deriving DecidableEq

/-- Whether an outcome is an HTTP response at all. -/
def Outcome.isResponse : Outcome → Bool
  | Outcome.response _ _ => true
  | _ => false

/-- `interaction_handler` in main.rs, parameterized by the ed25519
verification primitive `verify` (message bytes, decoded signature bytes)
standing for `PUB_KEY.verify`, and by the command handler `f`.  The stages
mirror the source in order: method check, path check, timestamp header,
signature header with hex decode, body read, signature verification over
timestamp ++ body, the UTF-8 `println!` with `unwrap`, JSON decode, and
dispatch on the interaction kind. -/
def interaction_handler (verify : List Nat → List Nat → Bool)
    (f : Interaction → Except String InteractionResponse)
    (req : Request) : Outcome :=
  if req.method ≠ Method.POST then
    Outcome.response 405 []
  else if req.path ≠ "/" then
    Outcome.response 404 []
  else
    match getHeader req.headers "x-signature-timestamp" with
    | none => Outcome.response 400 []
    | some timestamp =>
      match getHeader req.headers "x-signature-ed25519" with
      | none => Outcome.response 400 []
      | some hexSig =>
        match fromHex64 hexSig with
        | none => Outcome.errReturn PipelineError.hexError
        | some signature =>
          match req.body with
          | none => Outcome.errReturn PipelineError.bodyError
          | some whole_body =>
            if verify (timestamp ++ whole_body) signature = false then
              Outcome.response 403 []
            else if utf8Valid whole_body = false then
              Outcome.panicked
            else
              match decodeInteraction whole_body with
              | none => Outcome.errReturn PipelineError.jsonError
              | some interaction =>
                match interaction with
                | Interaction.Ping =>
                  Outcome.response 200 (encodeResponse InteractionResponse.Pong)
                | Interaction.ApplicationCommand _ =>
                  match f interaction with
                  | Except.error e => Outcome.errReturn (PipelineError.handlerError e)
                  | Except.ok response => Outcome.response 200 (encodeResponse response)
                | Interaction.Other => Outcome.response 400 []

/-! Concrete fixtures used by witnesses and counterexamples. -/

/-- A verification primitive accepting every (message, signature) pair. -/
def verifyAll : List Nat → List Nat → Bool := fun _ _ => true

/-- A verification primitive rejecting every (message, signature) pair,
standing for a public key the signature never matches. -/
def verifyNone : List Nat → List Nat → Bool := fun _ _ => false

/-- A concrete timestamp header value. -/
def tsBytes : List Nat := asciiBytes "1234567890"

/-- A well-formed signature header: 128 ASCII `0` digits. -/
def hexSigOk : List Nat := List.replicate 128 0x30

/-- The 64 zero bytes that `hexSigOk` decodes to. -/
def zeros64 : List Nat := List.replicate 64 0

/-- A signature header of the right length whose characters are not hex
digits: 128 ASCII `z`. -/
def badHexSig : List Nat := List.replicate 128 0x7A

/-- A POST to `/` carrying both signature headers and the given body. -/
def mkReq (b : Option (List Nat)) : Request :=
  { method := Method.POST
    path := "/"
    headers := [("x-signature-timestamp", tsBytes), ("x-signature-ed25519", hexSigOk)]
    body := b }

/-- The ping body `\x7b"type":1\x7d`. -/
def pingBody : List Nat := asciiBytes "\x7b\"type\":1\x7d"

/-- The application-command body invoking `vroom`. -/
def vroomBody : List Nat :=
  asciiBytes "\x7b\"type\":2,\"data\":\x7b\"name\":\"vroom\"\x7d\x7d"

/-- An application-command body with a name matching no router entry. -/
def unknownBody : List Nat :=
  asciiBytes "\x7b\"type\":2,\"data\":\x7b\"name\":\"unknown-xyz\"\x7d\x7d"

/-- Bytes that decode as no known interaction shape. -/
def notJsonBody : List Nat := asciiBytes "notjson"

/-- A POST to `/` whose signature header has the right length but is not
valid hex. -/
def reqBadHex : Request :=
  { method := Method.POST
    path := "/"
    headers := [("x-signature-timestamp", tsBytes), ("x-signature-ed25519", badHexSig)]
    body := some pingBody }

/-! ## C1 -/

/-- C1, counterexample: a request that passes the method, path, and
header-presence checks but whose `x-signature-ed25519` value is 128
non-hex characters does not get the 403 response of a wrong-but-well-formed
signature: the hex-decode error is propagated out of the handler with `?`,
which is not an HTTP response at all. -/
theorem c1_counterexample :
    interaction_handler verifyNone handler reqBadHex =
      Outcome.errReturn PipelineError.hexError ∧
    (interaction_handler verifyNone handler reqBadHex).isResponse = false ∧
    interaction_handler verifyNone handler reqBadHex ≠ Outcome.response 403 [] := by
  refine ⟨by decide, by decide, by decide⟩

/-- C1, amended: if the `x-signature-ed25519` header is present but is not
valid hex of a 64-byte signature, the handler does not produce a 403 (or
any) response; the decode failure is returned as an error value
(`Signature::new(FromHex::from_hex(hex_sig)?)`), which hyper surfaces
outside the handler, distinguishing malformed-signature from
wrong-signature. -/
theorem c1_theorem (verify : List Nat → List Nat → Bool)
    (f : Interaction → Except String InteractionResponse)
    (req : Request) (ts sigHex : List Nat)
    (hm : req.method = Method.POST) (hp : req.path = "/")
    (hts : getHeader req.headers "x-signature-timestamp" = some ts)
    (hsig : getHeader req.headers "x-signature-ed25519" = some sigHex)
    (hhex : fromHex64 sigHex = none) :
    interaction_handler verify f req = Outcome.errReturn PipelineError.hexError := by
  simp [interaction_handler, hm, hp, hts, hsig, hhex]

/-- C1, witness for the amended theorem at a concrete request. -/
theorem c1_witness :
    interaction_handler verifyAll handler reqBadHex =
      Outcome.errReturn PipelineError.hexError :=
  c1_theorem verifyAll handler reqBadHex tsBytes badHexSig rfl rfl rfl rfl (by decide)

/-! ## C2 -/

/-- C2: any request that reaches signature verification (POST to `/`, both
headers present, well-formed signature hex, body read) and fails it gets
status 403 with an empty body — for every command handler `f` alike, so no
handler is invoked and no `InteractionResponse` is produced or leaked. -/
theorem c2_theorem (verify : List Nat → List Nat → Bool)
    (f : Interaction → Except String InteractionResponse)
    (req : Request) (ts sigHex sigBytes body : List Nat)
    (hm : req.method = Method.POST) (hp : req.path = "/")
    (hts : getHeader req.headers "x-signature-timestamp" = some ts)
    (hsig : getHeader req.headers "x-signature-ed25519" = some sigHex)
    (hhex : fromHex64 sigHex = some sigBytes)
    (hbody : req.body = some body)
    (hfail : verify (ts ++ body) sigBytes = false) :
    interaction_handler verify f req = Outcome.response 403 [] := by
  simp [interaction_handler, hm, hp, hts, hsig, hhex, hbody, hfail]

/-- C2, witness: a concrete well-formed request whose signature does not
verify gets 403 with an empty body. -/
theorem c2_witness :
    interaction_handler verifyNone handler (mkReq (some pingBody)) =
      Outcome.response 403 [] :=
  c2_theorem verifyNone handler (mkReq (some pingBody)) tsBytes hexSigOk zeros64
    pingBody rfl rfl rfl rfl (by decide) rfl rfl

/-! ## C3 -/

/-- C3, counterexample: a request that passes signature verification but
whose body bytes decode to no known interaction shape is not answered with
a 400 response: the `serde_json::from_slice::<Interaction>(&whole_body)?`
error is propagated out of the handler, which is not an HTTP response at
all. -/
theorem c3_counterexample :
    interaction_handler verifyAll handler (mkReq (some notJsonBody)) =
      Outcome.errReturn PipelineError.jsonError ∧
    (interaction_handler verifyAll handler (mkReq (some notJsonBody))).isResponse = false ∧
    interaction_handler verifyAll handler (mkReq (some notJsonBody)) ≠
      Outcome.response 400 [] := by
  refine ⟨by decide, by decide, by decide⟩

/-- C3, amended: after successful signature verification, a body (of valid
UTF-8, which the logging `unwrap` requires) that decodes to no known
interaction shape makes the handler return the decode error as an error
value rather than any HTTP response; a 400 response is produced only for a
successfully decoded interaction that is neither a ping nor an application
command. -/
theorem c3_theorem (verify : List Nat → List Nat → Bool)
    (f : Interaction → Except String InteractionResponse)
    (req : Request) (ts sigHex sigBytes body : List Nat)
    (hm : req.method = Method.POST) (hp : req.path = "/")
    (hts : getHeader req.headers "x-signature-timestamp" = some ts)
    (hsig : getHeader req.headers "x-signature-ed25519" = some sigHex)
    (hhex : fromHex64 sigHex = some sigBytes)
    (hbody : req.body = some body)
    (hok : verify (ts ++ body) sigBytes = true)
    (hutf : utf8Valid body = true) :
    (decodeInteraction body = none →
      interaction_handler verify f req = Outcome.errReturn PipelineError.jsonError) ∧
    (decodeInteraction body = some Interaction.Other →
      interaction_handler verify f req = Outcome.response 400 []) := by
  constructor
  · intro hdec
    simp [interaction_handler, hm, hp, hts, hsig, hhex, hbody, hok, hutf, hdec]
  · intro hdec
    simp [interaction_handler, hm, hp, hts, hsig, hhex, hbody, hok, hutf, hdec]

/-- C3, witness for the amended theorem: the unparseable body `notjson`
after accepted verification yields the propagated decode error, and the
decoded-but-unhandled body `\x7b"type":3\x7d` yields 400. -/
theorem c3_witness :
    interaction_handler verifyAll handler (mkReq (some notJsonBody)) =
      Outcome.errReturn PipelineError.jsonError ∧
    interaction_handler verifyAll handler (mkReq (some (asciiBytes "\x7b\"type\":3\x7d"))) =
      Outcome.response 400 [] :=
  ⟨(c3_theorem verifyAll handler (mkReq (some notJsonBody)) tsBytes hexSigOk zeros64
      notJsonBody rfl rfl rfl rfl (by decide) rfl rfl (by decide)).1 rfl,
   (c3_theorem verifyAll handler (mkReq (some (asciiBytes "\x7b\"type\":3\x7d"))) tsBytes
      hexSigOk zeros64 (asciiBytes "\x7b\"type\":3\x7d") rfl rfl rfl rfl (by decide) rfl rfl
      (by decide)).2 rfl⟩

/-! ## C4 -/

/-- C4, counterexample: a failure to read the body
(`hyper::body::to_bytes(req).await?`) is not mapped to any externally
observable HTTP status: the handler returns the error value itself, which
crosses the handler boundary unencoded. -/
theorem c4_counterexample :
    interaction_handler verifyAll handler (mkReq none) =
      Outcome.errReturn PipelineError.bodyError ∧
    (interaction_handler verifyAll handler (mkReq none)).isResponse = false := by
  refine ⟨by decide, by decide⟩

/-- C4, amended: the method, path, header-presence, and
signature-verification failures, and all successes, are each mapped to a
single status (405, 404, 400, 403, or 200) — but not every internal failure
is: hex-decode, body-read, JSON-decode, and handler failures leave the
handler as unencoded error values, and a non-UTF-8 body panics the
handling task, producing no response. -/
theorem c4_theorem (verify : List Nat → List Nat → Bool)
    (f : Interaction → Except String InteractionResponse) (req : Request) :
    (∃ s b, interaction_handler verify f req = Outcome.response s b ∧
      (s = 405 ∨ s = 404 ∨ s = 400 ∨ s = 403 ∨ s = 200)) ∨
    (∃ e, interaction_handler verify f req = Outcome.errReturn e) ∨
    interaction_handler verify f req = Outcome.panicked := by
  unfold interaction_handler
  repeat' split
  all_goals first
    | exact Or.inr (Or.inr rfl)
    | exact Or.inr (Or.inl ⟨_, rfl⟩)
    | exact Or.inl ⟨_, _, rfl, by simp⟩

/-! ## C5 -/

/-- C5: for a request reaching verification with timestamp header `ts` and
body `body`, the interaction handler consults the verification primitive
only at the message `ts ++ body` — the bare concatenation, timestamp first,
no separator — with the decoded signature: its outcome is unchanged under
any two primitives agreeing there, and it is the 403 rejection exactly when
the primitive rejects that exact concatenation. -/
theorem c5_theorem (f : Interaction → Except String InteractionResponse)
    (req : Request) (ts sigHex sigBytes body : List Nat)
    (hm : req.method = Method.POST) (hp : req.path = "/")
    (hts : getHeader req.headers "x-signature-timestamp" = some ts)
    (hsig : getHeader req.headers "x-signature-ed25519" = some sigHex)
    (hhex : fromHex64 sigHex = some sigBytes)
    (hbody : req.body = some body) :
    (∀ v : List Nat → List Nat → Bool,
      (interaction_handler v f req = Outcome.response 403 [] ↔
        v (ts ++ body) sigBytes = false)) ∧
    (∀ v1 v2 : List Nat → List Nat → Bool,
      v1 (ts ++ body) sigBytes = v2 (ts ++ body) sigBytes →
      interaction_handler v1 f req = interaction_handler v2 f req) := by
  constructor
  · intro v
    cases hv : v (ts ++ body) sigBytes with
    | false => simp [interaction_handler, hm, hp, hts, hsig, hhex, hbody, hv]
    | true =>
      simp only [interaction_handler, hm, hp, hts, hsig, hhex, hbody, hv]
      simp
      repeat' split
      all_goals simp
  · intro v1 v2 hagree
    simp only [interaction_handler, hm, hp, hts, hsig, hhex, hbody]
    rw [hagree]

/-- C5, witness: at a concrete request, the rejecting primitive yields 403,
and the outcome agrees with that under a different primitive that also
rejects the concrete concatenated message. -/
theorem c5_witness :
    interaction_handler verifyNone handler (mkReq (some pingBody)) =
      Outcome.response 403 [] ∧
    interaction_handler verifyNone handler (mkReq (some pingBody)) =
      interaction_handler (fun m _ => m.isEmpty) handler (mkReq (some pingBody)) :=
  ⟨((c5_theorem handler (mkReq (some pingBody)) tsBytes hexSigOk zeros64 pingBody
      rfl rfl rfl rfl (by decide) rfl).1 verifyNone).mpr rfl,
   (c5_theorem handler (mkReq (some pingBody)) tsBytes hexSigOk zeros64 pingBody
      rfl rfl rfl rfl (by decide) rfl).2 verifyNone (fun m _ => m.isEmpty) (by decide)⟩

/-! ## C6 -/

/-- C6: the shape checks run method first, then path, then headers, each
short-circuiting to its own status — a non-POST method yields 405 whatever
the path, headers, and body; a POST to a wrong path yields 404 whatever the
headers and body; a POST to `/` missing either signature header yields
400 whatever the body.  Each conclusion holds for every body value
(including an unreadable body), so all three checks complete before the
body is consumed. -/
theorem c6_theorem (verify : List Nat → List Nat → Bool)
    (f : Interaction → Except String InteractionResponse) :
    (∀ (m : Method) (p : String) (hd : List (String × List Nat)) (b : Option (List Nat)),
      m ≠ Method.POST →
      interaction_handler verify f ⟨m, p, hd, b⟩ = Outcome.response 405 []) ∧
    (∀ (p : String) (hd : List (String × List Nat)) (b : Option (List Nat)),
      p ≠ "/" →
      interaction_handler verify f ⟨Method.POST, p, hd, b⟩ = Outcome.response 404 []) ∧
    (∀ (hd : List (String × List Nat)) (b : Option (List Nat)),
      (getHeader hd "x-signature-timestamp" = none ∨
        getHeader hd "x-signature-ed25519" = none) →
      interaction_handler verify f ⟨Method.POST, "/", hd, b⟩ = Outcome.response 400 []) := by
  refine ⟨?_, ?_, ?_⟩
  · intro m p hd b hm
    simp [interaction_handler, hm]
  · intro p hd b hp
    simp [interaction_handler, hp]
  · intro hd b hh
    rcases hh with hts | hsig
    · simp [interaction_handler, hts]
    · cases hts : getHeader hd "x-signature-timestamp" with
      | none => simp [interaction_handler, hts]
      | some ts => simp [interaction_handler, hts, hsig]

/-- C6, witness: a GET to `/` returns 405 for an arbitrary (never
consumed) body. -/
theorem c6_witness :
    interaction_handler verifyAll handler
      ⟨Method.GET, "/", [], some pingBody⟩ = Outcome.response 405 [] :=
  (c6_theorem verifyAll handler).1 Method.GET "/" [] (some pingBody) (by decide)

/-! ## C7 -/

/-- C7: an authenticated application-command interaction whose command name
is neither "vroom" nor "debug" — the empty string included — is dispatched
to the default `debug` handler, and the endpoint answers 200 with the
encoded debug reply, not 400 and not a routing error. -/
theorem c7_theorem (verify : List Nat → List Nat → Bool)
    (req : Request) (ts sigHex sigBytes body : List Nat) (name : String)
    (hm : req.method = Method.POST) (hp : req.path = "/")
    (hts : getHeader req.headers "x-signature-timestamp" = some ts)
    (hsig : getHeader req.headers "x-signature-ed25519" = some sigHex)
    (hhex : fromHex64 sigHex = some sigBytes)
    (hbody : req.body = some body)
    (hok : verify (ts ++ body) sigBytes = true)
    (hutf : utf8Valid body = true)
    (hdec : decodeInteraction body = some (Interaction.ApplicationCommand name))
    (hn1 : name ≠ "vroom") (hn2 : name ≠ "debug") :
    handler (Interaction.ApplicationCommand name) =
      debug (Interaction.ApplicationCommand name) ∧
    interaction_handler verify handler req =
      Outcome.response 200
        (encodeResponse (debugReply (Interaction.ApplicationCommand name))) := by
  have hh : handler (Interaction.ApplicationCommand name) =
      debug (Interaction.ApplicationCommand name) := by
    simp [handler, hn1, hn2]
  refine ⟨hh, ?_⟩
  simp [interaction_handler, hm, hp, hts, hsig, hhex, hbody, hok, hutf, hdec, hh, debug]

/-- C7, witness: the concrete authenticated command body with the unmatched
name "unknown-xyz" falls through to the debug handler and yields 200. -/
theorem c7_witness :
    handler (Interaction.ApplicationCommand "unknown-xyz") =
      debug (Interaction.ApplicationCommand "unknown-xyz") ∧
    interaction_handler verifyAll handler (mkReq (some unknownBody)) =
      Outcome.response 200
        (encodeResponse (debugReply (Interaction.ApplicationCommand "unknown-xyz"))) :=
  c7_theorem verifyAll (mkReq (some unknownBody)) tsBytes hexSigOk zeros64
    unknownBody "unknown-xyz" rfl rfl rfl rfl (by decide) rfl rfl (by decide)
    (by rfl) (by decide) (by decide)

/-! ## C8 -/

/-- C8: a POST to `/` with both headers, well-formed signature hex, and a
signature accepted over the timestamp and the ping body `\x7b"type":1\x7d`
is answered 200 with body exactly `\x7b"type":1\x7d` — for every command
handler `f` alike, so the Pong is produced without invoking the command
router. -/
theorem c8_theorem (verify : List Nat → List Nat → Bool)
    (f : Interaction → Except String InteractionResponse)
    (req : Request) (ts sigHex sigBytes : List Nat)
    (hm : req.method = Method.POST) (hp : req.path = "/")
    (hts : getHeader req.headers "x-signature-timestamp" = some ts)
    (hsig : getHeader req.headers "x-signature-ed25519" = some sigHex)
    (hhex : fromHex64 sigHex = some sigBytes)
    (hbody : req.body = some pingBody)
    (hok : verify (ts ++ pingBody) sigBytes = true) :
    interaction_handler verify f req = Outcome.response 200 pingBody := by
  have hdec : decodeInteraction pingBody = some Interaction.Ping := by rfl
  have hutf : utf8Valid pingBody = true := by decide
  have henc : encodeResponse InteractionResponse.Pong = pingBody := by rfl
  simp [interaction_handler, hm, hp, hts, hsig, hhex, hbody, hok, hutf, hdec, henc]

/-- C8, witness: the concrete accepted ping request round-trips
`\x7b"type":1\x7d`. -/
theorem c8_witness :
    interaction_handler verifyAll handler (mkReq (some pingBody)) =
      Outcome.response 200 pingBody :=
  c8_theorem verifyAll handler (mkReq (some pingBody)) tsBytes hexSigOk zeros64
    rfl rfl rfl rfl (by decide) rfl rfl

/-! ## C9 -/

/-- C9, counterexample: the authenticated "vroom" command is answered 200,
but the reply content is the fixed string "Vroom vroom", not the string
"vroom" — at the byte level too, the response body differs from that of a
reply whose content were "vroom". -/
theorem c9_counterexample :
    interaction_handler verifyAll handler (mkReq (some vroomBody)) =
      Outcome.response 200 (encodeResponse vroomReply) ∧
    replyContent vroomReply = some "Vroom vroom" ∧
    replyContent vroomReply ≠ some "vroom" ∧
    encodeResponse vroomReply ≠
      encodeResponse (InteractionResponse.ChannelMessageWithSource
        { allowed_mentions := none, flags := none, tts := none,
          content := some "vroom", embeds := [] }) := by
  refine ⟨by decide, by decide, by decide, by decide⟩

/-- C9, amended: every authenticated application-command interaction named
"vroom" is answered 200 with the encoded `vroom` reply, whose content is
the fixed string "Vroom vroom". -/
theorem c9_theorem (verify : List Nat → List Nat → Bool)
    (req : Request) (ts sigHex sigBytes body : List Nat)
    (hm : req.method = Method.POST) (hp : req.path = "/")
    (hts : getHeader req.headers "x-signature-timestamp" = some ts)
    (hsig : getHeader req.headers "x-signature-ed25519" = some sigHex)
    (hhex : fromHex64 sigHex = some sigBytes)
    (hbody : req.body = some body)
    (hok : verify (ts ++ body) sigBytes = true)
    (hutf : utf8Valid body = true)
    (hdec : decodeInteraction body = some (Interaction.ApplicationCommand "vroom")) :
    interaction_handler verify handler req =
      Outcome.response 200 (encodeResponse vroomReply) ∧
    replyContent vroomReply = some "Vroom vroom" := by
  refine ⟨?_, rfl⟩
  simp [interaction_handler, hm, hp, hts, hsig, hhex, hbody, hok, hutf, hdec,
    handler, vroom]

/-- C9, witness for the amended theorem at the concrete "vroom" request. -/
theorem c9_witness :
    interaction_handler verifyAll handler (mkReq (some vroomBody)) =
      Outcome.response 200 (encodeResponse vroomReply) ∧
    replyContent vroomReply = some "Vroom vroom" :=
  c9_theorem verifyAll (mkReq (some vroomBody)) tsBytes hexSigOk zeros64 vroomBody
    rfl rfl rfl rfl (by decide) rfl rfl (by decide) (by rfl)

/-! ## C10 -/

/-- C10: a request that passes the shape checks and signature verification
but whose body is not valid UTF-8 panics at the unconditional
`String::from_utf8(whole_body.to_vec()).unwrap()` on line 70, before JSON
decoding and dispatch, so no HTTP response is produced — for every command
handler `f` alike. -/
theorem c10_theorem (verify : List Nat → List Nat → Bool)
    (f : Interaction → Except String InteractionResponse)
    (req : Request) (ts sigHex sigBytes body : List Nat)
    (hm : req.method = Method.POST) (hp : req.path = "/")
    (hts : getHeader req.headers "x-signature-timestamp" = some ts)
    (hsig : getHeader req.headers "x-signature-ed25519" = some sigHex)
    (hhex : fromHex64 sigHex = some sigBytes)
    (hbody : req.body = some body)
    (hok : verify (ts ++ body) sigBytes = true)
    (hutf : utf8Valid body = false) :
    interaction_handler verify f req = Outcome.panicked := by
  simp [interaction_handler, hm, hp, hts, hsig, hhex, hbody, hok, hutf]

/-- C10, witness: the single byte 0xFF is not valid UTF-8; the otherwise
accepted request panics and yields no response. -/
theorem c10_witness :
    interaction_handler verifyAll handler (mkReq (some [0xFF])) =
      Outcome.panicked :=
  c10_theorem verifyAll handler (mkReq (some [0xFF])) tsBytes hexSigOk zeros64
    [0xFF] rfl rfl rfl rfl (by decide) rfl rfl (by decide)

end WebhookSlash
